import Mathlib

/-
Shallow embedding of the litemips MIPS32-subset simulator, src/src/lmips.c.

Machine integers are modelled as follows: every 32-bit cell (the 32 general
registers, hi, lo, the instruction pointer) holds its bit pattern as a Nat
strictly below 2^32; storing wraps with % 2^32, and signed (int32_t) readings
go through toSigned.  The program buffer is a list of byte values; a NULL
program pointer is Option.none.  Fallible execution returns an
ExecutionResult paired with the post state.

Constants from the header lmips.h are not part of src/; they are modelled
from the spec where so marked.
-/

namespace LMipsSim

/-- Modulus of a 32-bit cell. -/
def U32MOD : Nat := 2 ^ 32

/-- Reinterpret a 32-bit pattern as a signed int32_t value. -/
def toSigned (n : Nat) : Int := if n < 2 ^ 31 then (n : Int) else (n : Int) - 2 ^ 32

/-- Store an integer value into a 32-bit cell: the bit pattern kept is the
value reduced modulo 2^32 (this is what a C store into int32_t/uint32_t keeps). -/
def u32 (i : Int) : Nat := (i % ((2 : Int) ^ 32)).toNat

/-- C constant INT32_MAX used by CHECK_OVERFLOW (lmips.c line 65). -/
def INT32_MAX : Int := 2 ^ 31 - 1

/-- C constant INT32_MIN used by CHECK_OVERFLOW (lmips.c line 65). -/
def INT32_MIN : Int := -(2 ^ 31)

/-- Execution outcomes of lmips.c: EXEC_SUCCESS, the generic EXEC_FAILURE
(invalid program, unknown instruction, unknown syscall), and the integer
overflow exception.  Modelled from the spec: the enum lives in lmips.h,
which is not under src/; the three members are the ones lmips.c uses. -/
inductive ExecutionResult where
  | EXEC_SUCCESS
  | EXEC_FAILURE
  | EXEC_EXCP_INT_OVERFLOW
deriving DecidableEq, Repr

export ExecutionResult (EXEC_SUCCESS EXEC_FAILURE EXEC_EXCP_INT_OVERFLOW)

/-- Modelled from the spec: REG_COUNT from lmips.h (spec section 3: exactly 32 registers). -/
def REG_COUNT : Nat := 32

/-- Modelled from the spec: the stack-pointer register index (spec section 3:
conventionally register 29). -/
def regSp : Nat := 29

/-- Modelled from the spec: the return-address register index (spec section 3:
conventionally register 31). -/
def regRa : Nat := 31

/-- Modelled from the spec: the syscall-selector register index (spec section 3:
conventionally register 2). -/
def regV0 : Nat := 2

/-- Modelled from the spec: STACK_SIZE from lmips.h, the "fixed stack size
constant" of spec section 3.  Its numeric value is unspecified in the available
sources and nothing below depends on it; 1024 is a placeholder value. -/
def STACK_SIZE : Nat := 1024

/-- Modelled from the spec: the syscall exit selector SYS_EXIT from lmips.h
(spec section 4.3: the code for exit; value per the SPIM convention).  Nothing
below depends on its numeric value. -/
def SYS_EXIT : Int := 10

/-- Modelled from the spec: primary opcode values from lmips_opcodes.h (not
under src/), following the standard MIPS encodings the spec's section 8
end-to-end byte example pins down (0x20.. decodes to ADDI, 0x00..0x0C to
SYSCALL, function 0x20 to ADD). -/
def OP_SPECIAL : Nat := 0

/-- Modelled from the spec: primary opcode of J. -/
def OP_J : Nat := 2

/-- Modelled from the spec: primary opcode of JAL. -/
def OP_JAL : Nat := 3

/-- Modelled from the spec: primary opcode of BEQ. -/
def OP_BEQ : Nat := 4

/-- Modelled from the spec: primary opcode of BNE. -/
def OP_BNE : Nat := 5

/-- Modelled from the spec: primary opcode of BLEZ. -/
def OP_BLEZ : Nat := 6

/-- Modelled from the spec: primary opcode of BGTZ. -/
def OP_BGTZ : Nat := 7

/-- Modelled from the spec: primary opcode of ADDI. -/
def OP_ADDI : Nat := 8

/-- Modelled from the spec: primary opcode of ADDIU. -/
def OP_ADDIU : Nat := 9

/-- Modelled from the spec: primary opcode of SLTI. -/
def OP_SLTI : Nat := 10

/-- Modelled from the spec: primary opcode of SLTIU. -/
def OP_SLTIU : Nat := 11

/-- Modelled from the spec: primary opcode of ANDI. -/
def OP_ANDI : Nat := 12

/-- Modelled from the spec: primary opcode of ORI. -/
def OP_ORI : Nat := 13

/-- Modelled from the spec: primary opcode of XORI. -/
def OP_XORI : Nat := 14

/-- Modelled from the spec: SPECIAL function code of SLL. -/
def SPE_SLL : Nat := 0

/-- Modelled from the spec: SPECIAL function code of SRL. -/
def SPE_SRL : Nat := 2

/-- Modelled from the spec: SPECIAL function code of SRA. -/
def SPE_SRA : Nat := 3

/-- Modelled from the spec: SPECIAL function code of SLLV. -/
def SPE_SLLV : Nat := 4

/-- Modelled from the spec: SPECIAL function code of SRLV. -/
def SPE_SRLV : Nat := 6

/-- Modelled from the spec: SPECIAL function code of SRAV. -/
def SPE_SRAV : Nat := 7

/-- Modelled from the spec: SPECIAL function code of JR. -/
def SPE_JR : Nat := 8

/-- Modelled from the spec: SPECIAL function code of JALR. -/
def SPE_JALR : Nat := 9

/-- Modelled from the spec: SPECIAL function code of SYSCALL. -/
def SPE_SYSCALL : Nat := 12

/-- Modelled from the spec: SPECIAL function code of MFHI. -/
def SPE_MFHI : Nat := 16

/-- Modelled from the spec: SPECIAL function code of MTHI. -/
def SPE_MTHI : Nat := 17

/-- Modelled from the spec: SPECIAL function code of MFLO. -/
def SPE_MFLO : Nat := 18

/-- Modelled from the spec: SPECIAL function code of MTLO. -/
def SPE_MTLO : Nat := 19

/-- Modelled from the spec: SPECIAL function code of MULT. -/
def SPE_MULT : Nat := 24

/-- Modelled from the spec: SPECIAL function code of MULTU. -/
def SPE_MULTU : Nat := 25

/-- Modelled from the spec: SPECIAL function code of DIV. -/
def SPE_DIV : Nat := 26

/-- Modelled from the spec: SPECIAL function code of DIVU. -/
def SPE_DIVU : Nat := 27

/-- Modelled from the spec: SPECIAL function code of ADD. -/
def SPE_ADD : Nat := 32

/-- Modelled from the spec: SPECIAL function code of ADDU. -/
def SPE_ADDU : Nat := 33

/-- Modelled from the spec: SPECIAL function code of SUB. -/
def SPE_SUB : Nat := 34

/-- Modelled from the spec: SPECIAL function code of SUBU. -/
def SPE_SUBU : Nat := 35

/-- Modelled from the spec: SPECIAL function code of AND. -/
def SPE_AND : Nat := 36

/-- Modelled from the spec: SPECIAL function code of OR. -/
def SPE_OR : Nat := 37

/-- Modelled from the spec: SPECIAL function code of XOR. -/
def SPE_XOR : Nat := 38

/-- Modelled from the spec: SPECIAL function code of NOR. -/
def SPE_NOR : Nat := 39

/-- Modelled from the spec: SPECIAL function code of SLT. -/
def SPE_SLT : Nat := 42

/-- Modelled from the spec: SPECIAL function code of SLTU. -/
def SPE_SLTU : Nat := 43

/-- Processor state: struct LMips.  Fields as in lmips.c (ip, hi, lo, stop,
program, regs); the 32-bit cells hold bit patterns, program is an optional
byte list (none is the NULL pointer), regs is the 32-element register array. -/
structure LMips where
  ip : Nat
  hi : Nat
  lo : Nat
  stop : Bool
  program : Option (List Nat)
  regs : List Nat
deriving DecidableEq, Repr

/-- Read register i (C expression mips->regs[i]; i is always below 32 in the
source because every register field is masked with 0x1F). -/
def reg (m : LMips) (i : Nat) : Nat := m.regs.getD i 0

/-- Write register i with a value, truncating to 32 bits as a C store into an
int32_t cell does. -/
def setReg (m : LMips) (i : Nat) (v : Nat) : LMips :=
  { m with regs := m.regs.set i (v % U32MOD) }

/-- Macro GET_INSTR (lmips.c lines 48-53) without its ip side effects: the four
byte reads at offsets ip, ip+1, ip+2, ip+3, combined big-endian (the byte at
offset 0 is shifted to the most significant position). -/
def GET_INSTR (prog : List Nat) (ip : Nat) : Nat :=
  ((prog.getD ip 0) <<< 24) ||| ((prog.getD (ip + 1) 0) <<< 16) |||
    ((prog.getD (ip + 2) 0) <<< 8) ||| (prog.getD (ip + 3) 0)

/-- Macro GET_OP: bits 31-26. -/
def GET_OP (instr : Nat) : Nat := instr >>> 26

/-- Macro GET_RS: bits 25-21. -/
def GET_RS (instr : Nat) : Nat := (instr >>> 21) &&& 31

/-- Macro GET_RT: bits 20-16. -/
def GET_RT (instr : Nat) : Nat := (instr >>> 16) &&& 31

/-- Macro GET_RD: bits 15-11. -/
def GET_RD (instr : Nat) : Nat := (instr >>> 11) &&& 31

/-- Macro GET_SA: bits 10-6. -/
def GET_SA (instr : Nat) : Nat := (instr >>> 6) &&& 31

/-- Macro GET_FUNC: bits 5-0. -/
def GET_FUNC (instr : Nat) : Nat := instr &&& 63

/-- Macro GET_IMMED: bits 15-0. -/
def GET_IMMED (instr : Nat) : Nat := instr &&& 65535

/-- Macro GET_JT: bits 25-0. -/
def GET_JT (instr : Nat) : Nat := instr &&& 67108863

/-- Function zero_extend (lmips.c lines 301-303): returns x | (0x00 << bit_count),
which is x itself. -/
def zero_extend (x : Nat) (bit_count : Nat) : Nat := x ||| (0 <<< bit_count)

/-- Function sign_extend (lmips.c lines 305-311).  The C parameter is int16_t,
so the 16-bit immediate is reinterpreted as a signed 16-bit value at the call
site; inside the body, the line x |= (0xFFFF << bit_count) assigns back into
the int16_t parameter and therefore leaves its low 16 bits unchanged, and the
return promotes the int16_t to int32_t with sign extension.  Net effect on the
16-bit pattern x: subtract 2^bit_count when the top bit is set. -/
def sign_extend (x : Nat) (bit_count : Nat) : Int :=
  if (x >>> (bit_count - 1)) &&& 1 = 1 then (x : Int) - 2 ^ bit_count else (x : Int)

/-- Value fetched by GET_INSTR at the current instruction pointer
(lmips.c line 80, first half of uint32_t instr = GET_INSTR()). -/
def fetchWord (m : LMips) : Nat := GET_INSTR (m.program.getD []) m.ip

/-- State after the four ip++ side effects of GET_INSTR; ip is a uint32_t, so
the advance wraps modulo 2^32. -/
def afterFetch (m : LMips) : LMips := { m with ip := (m.ip + 4) % U32MOD }

/-- The switch of execInstruction (lmips.c lines 83-296), acting on the state
after the fetch side effects.  Each branch mirrors the corresponding case of
the source, including its bugs: SRL/SRA and SRLV/SRAV both shift the signed
register value (arithmetic shift), MTLO writes hi, MULT/MULTU multiply the two
int32_t values in 32-bit arithmetic before widening to int64_t, BEQ/BNE/BLEZ/BGTZ
add the zero-extended immediate shifted left by 2, BGTZ tests >= 0, and
ANDI/ORI/XORI combine the rs field value instead of the rs register value. -/
def dispatch (instr : Nat) (m : LMips) : ExecutionResult × LMips :=
  let op := GET_OP instr
  if op = OP_SPECIAL then
    let func := GET_FUNC instr
    if func = SPE_SLL then
      (EXEC_SUCCESS, setReg m (GET_RD instr) ((reg m (GET_RT instr)) <<< (GET_SA instr)))
    else if func = SPE_SRL ∨ func = SPE_SRA then
      (EXEC_SUCCESS, setReg m (GET_RD instr)
        (u32 (Int.fdiv (toSigned (reg m (GET_RT instr))) (2 ^ GET_SA instr))))
    else if func = SPE_SLLV then
      let amount := (reg m (GET_RS instr)) &&& 31
      (EXEC_SUCCESS, setReg m (GET_RD instr) ((reg m (GET_RT instr)) <<< amount))
    else if func = SPE_SRLV ∨ func = SPE_SRAV then
      let amount := (reg m (GET_RS instr)) &&& 31
      (EXEC_SUCCESS, setReg m (GET_RD instr)
        (u32 (Int.fdiv (toSigned (reg m (GET_RT instr))) (2 ^ amount))))
    else if func = SPE_JR then
      (EXEC_SUCCESS, { m with ip := reg m (GET_RS instr) })
    else if func = SPE_JALR then
      let rd := GET_RD instr
      let m1 := setReg m (if rd = 0 then regRa else rd) m.ip
      (EXEC_SUCCESS, { m1 with ip := reg m1 (GET_RS instr) })
    else if func = SPE_SYSCALL then
      if toSigned (reg m regV0) = SYS_EXIT then
        (EXEC_SUCCESS, { m with stop := true })
      else
        (EXEC_FAILURE, m)
    else if func = SPE_MFHI then
      (EXEC_SUCCESS, setReg m (GET_RD instr) m.hi)
    else if func = SPE_MTHI then
      (EXEC_SUCCESS, { m with hi := reg m (GET_RS instr) })
    else if func = SPE_MFLO then
      (EXEC_SUCCESS, setReg m (GET_RD instr) m.lo)
    else if func = SPE_MTLO then
      (EXEC_SUCCESS, { m with hi := reg m (GET_RS instr) })
    else if func = SPE_MULT ∨ func = SPE_MULTU then
      let result := toSigned (u32 (toSigned (reg m (GET_RS instr)) * toSigned (reg m (GET_RT instr))))
      (EXEC_SUCCESS, { m with hi := u32 (Int.fdiv result (2 ^ 32)), lo := u32 result })
    else if func = SPE_DIV ∨ func = SPE_DIVU then
      let rs := toSigned (reg m (GET_RS instr))
      let rt := toSigned (reg m (GET_RT instr))
      if rt ≠ 0 then
        (EXEC_SUCCESS, { m with hi := u32 (Int.tmod rs rt), lo := u32 (Int.tdiv rs rt) })
      else
        (EXEC_SUCCESS, m)
    else if func = SPE_ADD then
      let rs := toSigned (reg m (GET_RS instr))
      let rt := toSigned (reg m (GET_RT instr))
      if rs + rt > INT32_MAX ∨ rs + rt < INT32_MIN then
        (EXEC_EXCP_INT_OVERFLOW, m)
      else
        (EXEC_SUCCESS, setReg m (GET_RD instr) (u32 (rs + rt)))
    else if func = SPE_ADDU then
      (EXEC_SUCCESS, setReg m (GET_RD instr) ((reg m (GET_RS instr)) + (reg m (GET_RT instr))))
    else if func = SPE_SUB then
      let rs := toSigned (reg m (GET_RS instr))
      let rt := toSigned (reg m (GET_RT instr))
      if rs - rt > INT32_MAX ∨ rs - rt < INT32_MIN then
        (EXEC_EXCP_INT_OVERFLOW, m)
      else
        (EXEC_SUCCESS, setReg m (GET_RD instr) (u32 (rs - rt)))
    else if func = SPE_SUBU then
      (EXEC_SUCCESS, setReg m (GET_RD instr)
        (u32 ((reg m (GET_RS instr) : Int) - (reg m (GET_RT instr) : Int))))
    else if func = SPE_AND then
      (EXEC_SUCCESS, setReg m (GET_RD instr) ((reg m (GET_RS instr)) &&& (reg m (GET_RT instr))))
    else if func = SPE_OR then
      (EXEC_SUCCESS, setReg m (GET_RD instr) ((reg m (GET_RS instr)) ||| (reg m (GET_RT instr))))
    else if func = SPE_XOR then
      (EXEC_SUCCESS, setReg m (GET_RD instr) ((reg m (GET_RS instr)) ^^^ (reg m (GET_RT instr))))
    else if func = SPE_NOR then
      (EXEC_SUCCESS, setReg m (GET_RD instr)
        (((reg m (GET_RS instr)) ||| (reg m (GET_RT instr))) ^^^ (U32MOD - 1)))
    else if func = SPE_SLT ∨ func = SPE_SLTU then
      (EXEC_SUCCESS, setReg m (GET_RD instr)
        (if toSigned (reg m (GET_RS instr)) < toSigned (reg m (GET_RT instr)) then 1 else 0))
    else
      (EXEC_FAILURE, m)
  else if op = OP_J then
    (EXEC_SUCCESS, { m with ip := (GET_JT instr) <<< 2 })
  else if op = OP_JAL then
    let m1 := setReg m regRa m.ip
    (EXEC_SUCCESS, { m1 with ip := (GET_JT instr) <<< 2 })
  else if op = OP_BEQ then
    if reg m (GET_RS instr) = reg m (GET_RT instr) then
      (EXEC_SUCCESS, { m with ip := (m.ip + ((GET_IMMED instr) <<< 2)) % U32MOD })
    else
      (EXEC_SUCCESS, m)
  else if op = OP_BNE then
    if reg m (GET_RS instr) ≠ reg m (GET_RT instr) then
      (EXEC_SUCCESS, { m with ip := (m.ip + ((GET_IMMED instr) <<< 2)) % U32MOD })
    else
      (EXEC_SUCCESS, m)
  else if op = OP_BLEZ then
    if toSigned (reg m (GET_RS instr)) ≤ 0 then
      (EXEC_SUCCESS, { m with ip := (m.ip + ((GET_IMMED instr) <<< 2)) % U32MOD })
    else
      (EXEC_SUCCESS, m)
  else if op = OP_BGTZ then
    if toSigned (reg m (GET_RS instr)) ≥ 0 then
      (EXEC_SUCCESS, { m with ip := (m.ip + ((GET_IMMED instr) <<< 2)) % U32MOD })
    else
      (EXEC_SUCCESS, m)
  else if op = OP_ADDI then
    let immed := sign_extend (GET_IMMED instr) 16
    let rs := toSigned (reg m (GET_RS instr))
    if rs + immed > INT32_MAX ∨ rs + immed < INT32_MIN then
      (EXEC_EXCP_INT_OVERFLOW, m)
    else
      (EXEC_SUCCESS, setReg m (GET_RT instr) (u32 (rs + immed)))
  else if op = OP_ADDIU then
    let immed := zero_extend (GET_IMMED instr) 16
    (EXEC_SUCCESS, setReg m (GET_RT instr) ((reg m (GET_RS instr)) + immed))
  else if op = OP_SLTI then
    let immed := sign_extend (GET_IMMED instr) 16
    (EXEC_SUCCESS, setReg m (GET_RT instr)
      (if toSigned (reg m (GET_RS instr)) < immed then 1 else 0))
  else if op = OP_SLTIU then
    let immed := zero_extend (GET_IMMED instr) 16
    (EXEC_SUCCESS, setReg m (GET_RT instr)
      (if reg m (GET_RS instr) < immed then 1 else 0))
  else if op = OP_ANDI then
    let immed := zero_extend (GET_IMMED instr) 16
    (EXEC_SUCCESS, setReg m (GET_RT instr) ((GET_RS instr) &&& immed))
  else if op = OP_ORI then
    let immed := zero_extend (GET_IMMED instr) 16
    (EXEC_SUCCESS, setReg m (GET_RT instr) ((GET_RS instr) ||| immed))
  else if op = OP_XORI then
    let immed := zero_extend (GET_IMMED instr) 16
    (EXEC_SUCCESS, setReg m (GET_RT instr) ((GET_RS instr) ^^^ immed))
  else
    (EXEC_FAILURE, m)

/-- Function execInstruction (lmips.c lines 47-299): fetch one word (with the
ip advance of GET_INSTR), then dispatch on its opcode. -/
def execInstruction (m : LMips) : ExecutionResult × LMips :=
  dispatch (fetchWord m) (afterFetch m)

/-- Function resetSimulator (lmips.c lines 6-17): zero ip, hi, lo, clear stop,
drop the program pointer and zero all REG_COUNT registers. -/
def resetSimulator (_m : LMips) : LMips :=
  { ip := 0, hi := 0, lo := 0, stop := false, program := none,
    regs := List.replicate REG_COUNT 0 }

/-- Function initSimulator (lmips.c lines 19-23): reset, then preset the stack
pointer register and attach the program. -/
def initSimulator (m : LMips) (program : List Nat) : LMips :=
  let m1 := resetSimulator m
  { m1 with regs := m1.regs.set regSp STACK_SIZE, program := some program }

/-- The while loop of runSimulator (lmips.c lines 36-42), with explicit fuel
(the C loop may diverge; fuel exhaustion returns the accumulated result).
On a non-success step the loop stops the machine and returns that result. -/
def runLoop : Nat → LMips → ExecutionResult → ExecutionResult × LMips
  | 0, m, result => (result, m)
  | Nat.succ fuel, m, result =>
    if m.stop then (result, m)
    else
      let step := execInstruction m
      if step.1 ≠ EXEC_SUCCESS then (step.1, { step.2 with stop := true })
      else runLoop fuel step.2 step.1

/-- Function runSimulator (lmips.c lines 29-45): fail at once on a NULL
program, otherwise drive the fetch-decode-execute loop. -/
def runSimulator (fuel : Nat) (m : LMips) : ExecutionResult × LMips :=
  if m.program = none then (EXEC_FAILURE, m)
  else runLoop fuel m EXEC_FAILURE

/-- Concrete machine: ADD r1 = r2 + r3 with regs 2 and 3 holding 7 and 9
(instruction word 0x00430820, big-endian bytes). -/
def mAddOk : LMips :=
  { ip := 0, hi := 5, lo := 6, stop := false, program := some [0, 67, 8, 32],
    regs := ((List.replicate 32 0).set 2 7).set 3 9 }

/-- Concrete machine: ADD r1 = r2 + r3 with regs 2 and 3 holding INT32_MAX and 1. -/
def mAddOvf : LMips :=
  { ip := 0, hi := 5, lo := 6, stop := false, program := some [0, 67, 8, 32],
    regs := ((List.replicate 32 0).set 2 (2 ^ 31 - 1)).set 3 1 }

/-- Concrete machine: ADDI r1 = r0 + 5 (word 0x20010005). -/
def mAddiOk : LMips :=
  { ip := 0, hi := 5, lo := 6, stop := false, program := some [32, 1, 0, 5],
    regs := List.replicate 32 0 }

/-- Concrete machine: ADDI r1 = r2 + 1 with reg 2 holding INT32_MAX
(word 0x20410001). -/
def mAddiOvf : LMips :=
  { ip := 0, hi := 5, lo := 6, stop := false, program := some [32, 65, 0, 1],
    regs := (List.replicate 32 0).set 2 (2 ^ 31 - 1) }

/-- Concrete machine: program bytes 0x12, 0x34, 0x56, 0x78 at ip 0. -/
def mFetch : LMips :=
  { ip := 0, hi := 0, lo := 0, stop := false, program := some [18, 52, 86, 120],
    regs := List.replicate 32 0 }

/-- Concrete machine: BEQ r0, r0 with immediate 0xFFFF (word 0x1000FFFF),
all registers zero, so the branch is taken with a negative 16-bit immediate. -/
def mBeqNeg : LMips :=
  { ip := 0, hi := 0, lo := 0, stop := false, program := some [16, 0, 255, 255],
    regs := List.replicate 32 0 }

/-- Concrete machine: MULT r2 * r3 with both registers holding 65536
(word 0x00430018), so the true product is 2^32. -/
def mMultBig : LMips :=
  { ip := 0, hi := 5, lo := 6, stop := false, program := some [0, 67, 0, 24],
    regs := ((List.replicate 32 0).set 2 65536).set 3 65536 }

/-- Concrete machine: DIV r2 / r3 with reg 2 holding the pattern of -7 and
reg 3 holding 2 (word 0x0043001A). -/
def mDivOk : LMips :=
  { ip := 0, hi := 5, lo := 6, stop := false, program := some [0, 67, 0, 26],
    regs := ((List.replicate 32 0).set 2 (2 ^ 32 - 7)).set 3 2 }

/-- Concrete machine: DIV r2 / r3 with reg 3 (the divisor) holding 0. -/
def mDivZero : LMips :=
  { ip := 0, hi := 5, lo := 6, stop := false, program := some [0, 67, 0, 26],
    regs := (List.replicate 32 0).set 2 123 }

/-- Concrete machine: MTLO with reg 2 holding 77 (word 0x00400013). -/
def mMtlo : LMips :=
  { ip := 0, hi := 5, lo := 6, stop := false, program := some [0, 64, 0, 19],
    regs := (List.replicate 32 0).set 2 77 }

/-- Concrete machine: ORI r4 = rs-field 8 with immediate 1 (word 0x35040001),
with register 8 holding 12345. -/
def mOri : LMips :=
  { ip := 0, hi := 5, lo := 6, stop := false, program := some [53, 4, 0, 1],
    regs := (List.replicate 32 0).set 8 12345 }

/-- Concrete machine with no program attached and nonzero everything else. -/
def mNoProg : LMips :=
  { ip := 12, hi := 3, lo := 4, stop := false, program := none,
    regs := List.replicate 32 9 }

/-- Concrete machine: SLTU r1 = (r2 < r3) with reg 2 holding the pattern of -1
and reg 3 holding 0 (word 0x0043082B). -/
def mSltu : LMips :=
  { ip := 0, hi := 0, lo := 0, stop := false, program := some [0, 67, 8, 43],
    regs := (List.replicate 32 0).set 2 (2 ^ 32 - 1) }

/-- Concrete machine: SLTIU r1, r2, immediate 0 with reg 2 holding the pattern
of -1 (word 0x2C410000). -/
def mSltiu : LMips :=
  { ip := 0, hi := 0, lo := 0, stop := false, program := some [44, 65, 0, 0],
    regs := (List.replicate 32 0).set 2 (2 ^ 32 - 1) }

theorem reg_afterFetch (m : LMips) (i : Nat) : reg (afterFetch m) i = reg m i := by
  simp [reg, afterFetch]

theorem afterFetch_regs (m : LMips) : (afterFetch m).regs = m.regs := rfl

theorem afterFetch_hi (m : LMips) : (afterFetch m).hi = m.hi := rfl

theorem afterFetch_lo (m : LMips) : (afterFetch m).lo = m.lo := rfl

theorem afterFetch_ip (m : LMips) : (afterFetch m).ip = (m.ip + 4) % U32MOD := rfl

theorem reg_setReg_self (m : LMips) (i v : Nat) (h : i < m.regs.length) :
    reg (setReg m i v) i = v % U32MOD := by
  simp [reg, setReg, List.getD, List.getElem?_set_self, h]

theorem field_lt_32 (x : Nat) : x &&& 31 < 32 :=
  Nat.lt_succ_of_le (Nat.and_le_right)

theorem getD_lt_of_bytes (l : List Nat) (h : ∀ b ∈ l, b < 256) (i : Nat) :
    l.getD i 0 < 256 := by
  by_cases hi : i < l.length
  · rw [List.getD_eq_getElem l 0 hi]
    exact h _ (List.getElem_mem hi)
  · rw [List.getD_eq_default l 0 (Nat.le_of_not_lt hi)]
    exact Nat.zero_lt_succ _

theorem or_shift_bytes (b0 b1 b2 b3 : Nat)
    (_h0 : b0 < 256) (h1 : b1 < 256) (h2 : b2 < 256) (h3 : b3 < 256) :
    (b0 <<< 24) ||| (b1 <<< 16) ||| (b2 <<< 8) ||| b3 =
      b0 * 2 ^ 24 + b1 * 2 ^ 16 + b2 * 2 ^ 8 + b3 := by
  rw [Nat.shiftLeft_eq, Nat.shiftLeft_eq, Nat.shiftLeft_eq]
  have e0 : b0 * 2 ^ 24 = 2 ^ 24 * b0 := Nat.mul_comm _ _
  rw [e0, ← Nat.mul_add_lt_is_or (b := b1 * 2 ^ 16) (by omega) b0]
  have e1 : 2 ^ 24 * b0 + b1 * 2 ^ 16 = 2 ^ 16 * (2 ^ 8 * b0 + b1) := by ring
  rw [e1, ← Nat.mul_add_lt_is_or (b := b2 * 2 ^ 8) (by omega) _]
  have e2 : 2 ^ 16 * (2 ^ 8 * b0 + b1) + b2 * 2 ^ 8 =
      2 ^ 8 * (2 ^ 16 * b0 + 2 ^ 8 * b1 + b2) := by ring
  rw [e2, ← Nat.mul_add_lt_is_or h3 _]

theorem dispatch_ADD (instr : Nat) (m : LMips)
    (h1 : GET_OP instr = OP_SPECIAL) (h2 : GET_FUNC instr = SPE_ADD) :
    dispatch instr m =
      if toSigned (reg m (GET_RS instr)) + toSigned (reg m (GET_RT instr)) > INT32_MAX ∨
          toSigned (reg m (GET_RS instr)) + toSigned (reg m (GET_RT instr)) < INT32_MIN then
        (EXEC_EXCP_INT_OVERFLOW, m)
      else
        (EXEC_SUCCESS, setReg m (GET_RD instr)
          (u32 (toSigned (reg m (GET_RS instr)) + toSigned (reg m (GET_RT instr))))) := by
  simp [dispatch, h1, h2, OP_SPECIAL, SPE_SLL, SPE_SRL, SPE_SRA, SPE_SLLV, SPE_SRLV,
    SPE_SRAV, SPE_JR, SPE_JALR, SPE_SYSCALL, SPE_MFHI, SPE_MTHI, SPE_MFLO, SPE_MTLO,
    SPE_MULT, SPE_MULTU, SPE_DIV, SPE_DIVU, SPE_ADD]

theorem dispatch_ADDI (instr : Nat) (m : LMips) (h1 : GET_OP instr = OP_ADDI) :
    dispatch instr m =
      if toSigned (reg m (GET_RS instr)) + sign_extend (GET_IMMED instr) 16 > INT32_MAX ∨
          toSigned (reg m (GET_RS instr)) + sign_extend (GET_IMMED instr) 16 < INT32_MIN then
        (EXEC_EXCP_INT_OVERFLOW, m)
      else
        (EXEC_SUCCESS, setReg m (GET_RT instr)
          (u32 (toSigned (reg m (GET_RS instr)) + sign_extend (GET_IMMED instr) 16))) := by
  simp [dispatch, h1, OP_SPECIAL, OP_J, OP_JAL, OP_BEQ, OP_BNE, OP_BLEZ, OP_BGTZ, OP_ADDI]

theorem dispatch_BEQ (instr : Nat) (m : LMips) (h1 : GET_OP instr = OP_BEQ) :
    dispatch instr m =
      if reg m (GET_RS instr) = reg m (GET_RT instr) then
        (EXEC_SUCCESS, { m with ip := (m.ip + ((GET_IMMED instr) <<< 2)) % U32MOD })
      else (EXEC_SUCCESS, m) := by
  simp [dispatch, h1, OP_SPECIAL, OP_J, OP_JAL, OP_BEQ]

theorem dispatch_BNE (instr : Nat) (m : LMips) (h1 : GET_OP instr = OP_BNE) :
    dispatch instr m =
      if reg m (GET_RS instr) = reg m (GET_RT instr) then (EXEC_SUCCESS, m)
      else
        (EXEC_SUCCESS, { m with ip := (m.ip + ((GET_IMMED instr) <<< 2)) % U32MOD }) := by
  by_cases h : reg m (GET_RS instr) = reg m (GET_RT instr) <;>
    simp [dispatch, h1, h, OP_SPECIAL, OP_J, OP_JAL, OP_BEQ, OP_BNE]

theorem dispatch_MULT (instr : Nat) (m : LMips) (h1 : GET_OP instr = OP_SPECIAL)
    (h2 : GET_FUNC instr = SPE_MULT ∨ GET_FUNC instr = SPE_MULTU) :
    dispatch instr m =
      (EXEC_SUCCESS,
        { m with
          hi := u32 (Int.fdiv
            (toSigned (u32 (toSigned (reg m (GET_RS instr)) * toSigned (reg m (GET_RT instr)))))
            (2 ^ 32)),
          lo := u32 (toSigned (u32 (toSigned (reg m (GET_RS instr)) *
            toSigned (reg m (GET_RT instr))))) }) := by
  rcases h2 with h2 | h2 <;>
    simp [dispatch, h1, h2, OP_SPECIAL, SPE_SLL, SPE_SRL, SPE_SRA, SPE_SLLV, SPE_SRLV,
      SPE_SRAV, SPE_JR, SPE_JALR, SPE_SYSCALL, SPE_MFHI, SPE_MTHI, SPE_MFLO, SPE_MTLO,
      SPE_MULT, SPE_MULTU]

theorem dispatch_DIV (instr : Nat) (m : LMips) (h1 : GET_OP instr = OP_SPECIAL)
    (h2 : GET_FUNC instr = SPE_DIV ∨ GET_FUNC instr = SPE_DIVU) :
    dispatch instr m =
      if toSigned (reg m (GET_RT instr)) ≠ 0 then
        (EXEC_SUCCESS,
          { m with
            hi := u32 (Int.tmod (toSigned (reg m (GET_RS instr))) (toSigned (reg m (GET_RT instr)))),
            lo := u32 (Int.tdiv (toSigned (reg m (GET_RS instr))) (toSigned (reg m (GET_RT instr)))) })
      else (EXEC_SUCCESS, m) := by
  rcases h2 with h2 | h2 <;>
    simp [dispatch, h1, h2, OP_SPECIAL, SPE_SLL, SPE_SRL, SPE_SRA, SPE_SLLV, SPE_SRLV,
      SPE_SRAV, SPE_JR, SPE_JALR, SPE_SYSCALL, SPE_MFHI, SPE_MTHI, SPE_MFLO, SPE_MTLO,
      SPE_MULT, SPE_MULTU, SPE_DIV, SPE_DIVU]

theorem dispatch_MTLO (instr : Nat) (m : LMips) (h1 : GET_OP instr = OP_SPECIAL)
    (h2 : GET_FUNC instr = SPE_MTLO) :
    dispatch instr m = (EXEC_SUCCESS, { m with hi := reg m (GET_RS instr) }) := by
  simp [dispatch, h1, h2, OP_SPECIAL, SPE_SLL, SPE_SRL, SPE_SRA, SPE_SLLV, SPE_SRLV,
    SPE_SRAV, SPE_JR, SPE_JALR, SPE_SYSCALL, SPE_MFHI, SPE_MTHI, SPE_MFLO, SPE_MTLO]

theorem dispatch_SLT (instr : Nat) (m : LMips) (h1 : GET_OP instr = OP_SPECIAL)
    (h2 : GET_FUNC instr = SPE_SLT ∨ GET_FUNC instr = SPE_SLTU) :
    dispatch instr m =
      (EXEC_SUCCESS, setReg m (GET_RD instr)
        (if toSigned (reg m (GET_RS instr)) < toSigned (reg m (GET_RT instr)) then 1 else 0)) := by
  rcases h2 with h2 | h2 <;>
    simp [dispatch, h1, h2, OP_SPECIAL, SPE_SLL, SPE_SRL, SPE_SRA, SPE_SLLV, SPE_SRLV,
      SPE_SRAV, SPE_JR, SPE_JALR, SPE_SYSCALL, SPE_MFHI, SPE_MTHI, SPE_MFLO, SPE_MTLO,
      SPE_MULT, SPE_MULTU, SPE_DIV, SPE_DIVU, SPE_ADD, SPE_ADDU, SPE_SUB, SPE_SUBU,
      SPE_AND, SPE_OR, SPE_XOR, SPE_NOR, SPE_SLT, SPE_SLTU]

theorem dispatch_SLTIU (instr : Nat) (m : LMips) (h1 : GET_OP instr = OP_SLTIU) :
    dispatch instr m =
      (EXEC_SUCCESS, setReg m (GET_RT instr)
        (if reg m (GET_RS instr) < zero_extend (GET_IMMED instr) 16 then 1 else 0)) := by
  simp [dispatch, h1, OP_SPECIAL, OP_J, OP_JAL, OP_BEQ, OP_BNE, OP_BLEZ, OP_BGTZ,
    OP_ADDI, OP_ADDIU, OP_SLTI, OP_SLTIU]

theorem u32_lt (i : Int) : u32 i < U32MOD := by
  have h2 : 0 ≤ i % ((2 : Int) ^ 32) := Int.emod_nonneg i (by norm_num)
  have h3 : i % ((2 : Int) ^ 32) < 2 ^ 32 := Int.emod_lt_of_pos i (by norm_num)
  rw [u32, U32MOD]
  omega

theorem u32_mod (i : Int) : u32 i % U32MOD = u32 i := Nat.mod_eq_of_lt (u32_lt i)

theorem reg_setReg_u32 (m : LMips) (i : Nat) (v : Int) (h : i < m.regs.length) :
    reg (setReg m i (u32 v)) i = u32 v := by
  rw [reg_setReg_self m i (u32 v) h, u32_mod]

/-- C1: for all signed 32-bit register values, the trapping instructions ADD
and ADDI commit the (32-bit) sum to the destination register and succeed when
the mathematical sum lies in the signed 32-bit range; otherwise they fail with
the integer-overflow fault and the whole post state is just the fetch-advanced
state, so the destination register is unchanged and nothing was committed
before the fault. -/
theorem C1_add_addi_overflow (m : LMips) (instr : Nat) (h0 : fetchWord m = instr)
    (hlen : m.regs.length = REG_COUNT) :
    (GET_OP instr = OP_SPECIAL → GET_FUNC instr = SPE_ADD →
      ((INT32_MIN ≤ toSigned (reg m (GET_RS instr)) + toSigned (reg m (GET_RT instr)) ∧
          toSigned (reg m (GET_RS instr)) + toSigned (reg m (GET_RT instr)) ≤ INT32_MAX →
          execInstruction m = (EXEC_SUCCESS, setReg (afterFetch m) (GET_RD instr)
            (u32 (toSigned (reg m (GET_RS instr)) + toSigned (reg m (GET_RT instr))))) ∧
          reg (execInstruction m).2 (GET_RD instr) =
            u32 (toSigned (reg m (GET_RS instr)) + toSigned (reg m (GET_RT instr)))) ∧
        (toSigned (reg m (GET_RS instr)) + toSigned (reg m (GET_RT instr)) < INT32_MIN ∨
            INT32_MAX < toSigned (reg m (GET_RS instr)) + toSigned (reg m (GET_RT instr)) →
          execInstruction m = (EXEC_EXCP_INT_OVERFLOW, afterFetch m) ∧
          reg (execInstruction m).2 (GET_RD instr) = reg m (GET_RD instr)))) ∧
    (GET_OP instr = OP_ADDI →
      ((INT32_MIN ≤ toSigned (reg m (GET_RS instr)) + sign_extend (GET_IMMED instr) 16 ∧
          toSigned (reg m (GET_RS instr)) + sign_extend (GET_IMMED instr) 16 ≤ INT32_MAX →
          execInstruction m = (EXEC_SUCCESS, setReg (afterFetch m) (GET_RT instr)
            (u32 (toSigned (reg m (GET_RS instr)) + sign_extend (GET_IMMED instr) 16))) ∧
          reg (execInstruction m).2 (GET_RT instr) =
            u32 (toSigned (reg m (GET_RS instr)) + sign_extend (GET_IMMED instr) 16)) ∧
        (toSigned (reg m (GET_RS instr)) + sign_extend (GET_IMMED instr) 16 < INT32_MIN ∨
            INT32_MAX < toSigned (reg m (GET_RS instr)) + sign_extend (GET_IMMED instr) 16 →
          execInstruction m = (EXEC_EXCP_INT_OVERFLOW, afterFetch m) ∧
          reg (execInstruction m).2 (GET_RT instr) = reg m (GET_RT instr)))) := by
  have he : execInstruction m = dispatch instr (afterFetch m) := by
    rw [execInstruction, h0]
  have hlen' : ∀ j : Nat, j &&& 31 < (afterFetch m).regs.length := by
    intro j
    rw [afterFetch_regs, hlen]
    exact field_lt_32 j
  constructor
  · intro hop hfunc
    have hd := dispatch_ADD instr (afterFetch m) hop hfunc
    simp only [reg_afterFetch] at hd
    constructor
    · intro hin
      have hcond : ¬(toSigned (reg m (GET_RS instr)) + toSigned (reg m (GET_RT instr)) > INT32_MAX ∨
          toSigned (reg m (GET_RS instr)) + toSigned (reg m (GET_RT instr)) < INT32_MIN) := by
        obtain ⟨ha, hb⟩ := hin
        norm_num [INT32_MAX, INT32_MIN] at ha hb ⊢
        omega
      rw [he, hd, if_neg hcond]
      refine ⟨rfl, ?_⟩
      exact reg_setReg_u32 (afterFetch m) (GET_RD instr) _ (hlen' (instr >>> 11))
    · intro hover
      have hcond : toSigned (reg m (GET_RS instr)) + toSigned (reg m (GET_RT instr)) > INT32_MAX ∨
          toSigned (reg m (GET_RS instr)) + toSigned (reg m (GET_RT instr)) < INT32_MIN := by
        rcases hover with h | h
        · exact Or.inr h
        · exact Or.inl h
      rw [he, hd, if_pos hcond]
      exact ⟨rfl, reg_afterFetch m _⟩
  · intro hop
    have hd := dispatch_ADDI instr (afterFetch m) hop
    simp only [reg_afterFetch] at hd
    constructor
    · intro hin
      have hcond : ¬(toSigned (reg m (GET_RS instr)) + sign_extend (GET_IMMED instr) 16 > INT32_MAX ∨
          toSigned (reg m (GET_RS instr)) + sign_extend (GET_IMMED instr) 16 < INT32_MIN) := by
        obtain ⟨ha, hb⟩ := hin
        norm_num [INT32_MAX, INT32_MIN] at ha hb ⊢
        omega
      rw [he, hd, if_neg hcond]
      refine ⟨rfl, ?_⟩
      exact reg_setReg_u32 (afterFetch m) (GET_RT instr) _ (hlen' (instr >>> 16))
    · intro hover
      have hcond : toSigned (reg m (GET_RS instr)) + sign_extend (GET_IMMED instr) 16 > INT32_MAX ∨
          toSigned (reg m (GET_RS instr)) + sign_extend (GET_IMMED instr) 16 < INT32_MIN := by
        rcases hover with h | h
        · exact Or.inr h
        · exact Or.inl h
      rw [he, hd, if_pos hcond]
      exact ⟨rfl, reg_afterFetch m _⟩

/-- C1 witness: concrete ADD and ADDI runs, in range committing the sum and out
of range faulting with the fetch-advanced state returned unchanged. -/
theorem C1_add_addi_overflow_witness :
    reg (execInstruction mAddOk).2 1 = 16 ∧
    execInstruction mAddOvf = (EXEC_EXCP_INT_OVERFLOW, afterFetch mAddOvf) ∧
    reg (execInstruction mAddiOk).2 1 = 5 ∧
    execInstruction mAddiOvf = (EXEC_EXCP_INT_OVERFLOW, afterFetch mAddiOvf) := by
  refine ⟨?_, ?_, ?_, ?_⟩
  · exact ((((C1_add_addi_overflow mAddOk (fetchWord mAddOk) rfl (by decide)).1
      (by decide) (by decide)).1 (by decide)).2).trans (by decide)
  · exact (((C1_add_addi_overflow mAddOvf (fetchWord mAddOvf) rfl (by decide)).1
      (by decide) (by decide)).2 (by decide)).1
  · exact (((C1_add_addi_overflow mAddiOk (fetchWord mAddiOk) rfl (by decide)).2
      (by decide)).1 (by decide)).2.trans (by decide)
  · exact (((C1_add_addi_overflow mAddiOvf (fetchWord mAddiOvf) rfl (by decide)).2
      (by decide)).2 (by decide)).1

/-- C2: a single fetch reads exactly the 4 consecutive program bytes at
offsets ip, ip+1, ip+2, ip+3, combines them big-endian (the byte at offset 0
is the most significant byte), and advances the instruction pointer by exactly
4 (as a uint32_t, so modulo 2^32, which is plain + 4 whenever ip + 4 does not
overflow); no other component of the state is touched by the fetch, and one
executed instruction is exactly the dispatch of the fetched word on the
fetch-advanced state. -/
theorem C2_fetch_big_endian (m : LMips) (prog : List Nat) (hp : m.program = some prog)
    (hbytes : ∀ b ∈ prog, b < 256) :
    execInstruction m = dispatch (fetchWord m) (afterFetch m) ∧
    fetchWord m = (prog.getD m.ip 0) * 2 ^ 24 + (prog.getD (m.ip + 1) 0) * 2 ^ 16 +
      (prog.getD (m.ip + 2) 0) * 2 ^ 8 + prog.getD (m.ip + 3) 0 ∧
    (afterFetch m).ip = (m.ip + 4) % U32MOD ∧
    (m.ip + 4 < U32MOD → (afterFetch m).ip = m.ip + 4) ∧
    (afterFetch m).hi = m.hi ∧ (afterFetch m).lo = m.lo ∧
    (afterFetch m).regs = m.regs ∧ (afterFetch m).stop = m.stop ∧
    (afterFetch m).program = m.program := by
  refine ⟨rfl, ?_, rfl, ?_, rfl, rfl, rfl, rfl, rfl⟩
  · simp only [fetchWord, hp, Option.getD_some, GET_INSTR]
    exact or_shift_bytes _ _ _ _ (getD_lt_of_bytes prog hbytes _)
      (getD_lt_of_bytes prog hbytes _) (getD_lt_of_bytes prog hbytes _)
      (getD_lt_of_bytes prog hbytes _)
  · intro h4
    rw [afterFetch_ip, Nat.mod_eq_of_lt h4]

/-- C2 witness: fetching the concrete bytes 0x12 0x34 0x56 0x78 at ip 0 yields
the word 0x12345678 and ip 4. -/
theorem C2_fetch_big_endian_witness :
    fetchWord mFetch = 305419896 ∧ (afterFetch mFetch).ip = 4 := by
  have h := C2_fetch_big_endian mFetch [18, 52, 86, 120] rfl (by decide)
  exact ⟨h.2.1.trans (by decide), (h.2.2.2.1 (by decide)).trans (by decide)⟩

/-- C3 counterexample: a taken BEQ with the negative 16-bit immediate 0xFFFF
does not set the instruction pointer to P + sign_extend(imm) * 4 (which would
be P - 4, i.e. 0): the code zero-extends the immediate before shifting, so the
pointer lands far forward instead of moving backwards. -/
theorem C3_branch_counterexample :
    GET_OP (fetchWord mBeqNeg) = OP_BEQ ∧
    reg mBeqNeg (GET_RS (fetchWord mBeqNeg)) = reg mBeqNeg (GET_RT (fetchWord mBeqNeg)) ∧
    sign_extend (GET_IMMED (fetchWord mBeqNeg)) 16 < 0 ∧
    (execInstruction mBeqNeg).2.ip = 262144 ∧
    (execInstruction mBeqNeg).2.ip ≠
      u32 (((afterFetch mBeqNeg).ip : Int) +
        sign_extend (GET_IMMED (fetchWord mBeqNeg)) 16 * 4) := by
  decide

/-- C3 amended: for every 16-bit immediate imm, a taken BEQ or BNE (operands
equal for BEQ, unequal for BNE) sets the instruction pointer to
(P + zero_extend(imm) * 4) mod 2^32, where P is the pointer already advanced
past the 4-byte branch instruction; the immediate is zero-extended, not
sign-extended, so an immediate with the top bit set moves the pointer far
forward rather than backwards. -/
theorem C3_branch_zero_extended (m : LMips) (instr : Nat) (h0 : fetchWord m = instr)
    (htaken : (GET_OP instr = OP_BEQ ∧ reg m (GET_RS instr) = reg m (GET_RT instr)) ∨
      (GET_OP instr = OP_BNE ∧ reg m (GET_RS instr) ≠ reg m (GET_RT instr))) :
    (execInstruction m).2.ip =
      ((afterFetch m).ip + zero_extend (GET_IMMED instr) 16 * 4) % U32MOD := by
  have he : execInstruction m = dispatch instr (afterFetch m) := by
    rw [execInstruction, h0]
  rcases htaken with ⟨hop, heq⟩ | ⟨hop, hne⟩
  · have hd := dispatch_BEQ instr (afterFetch m) hop
    simp only [reg_afterFetch] at hd
    rw [he, hd, if_pos heq]
    show ((afterFetch m).ip + GET_IMMED instr <<< 2) % U32MOD = _
    rw [Nat.shiftLeft_eq]
    norm_num [zero_extend]
  · have hd := dispatch_BNE instr (afterFetch m) hop
    simp only [reg_afterFetch] at hd
    rw [he, hd, if_neg hne]
    show ((afterFetch m).ip + GET_IMMED instr <<< 2) % U32MOD = _
    rw [Nat.shiftLeft_eq]
    norm_num [zero_extend]

/-- C3 amended witness: the concrete taken BEQ with immediate 0xFFFF lands at
(4 + 0xFFFF * 4) mod 2^32 = 262144. -/
theorem C3_branch_zero_extended_witness : (execInstruction mBeqNeg).2.ip = 262144 := by
  have h := C3_branch_zero_extended mBeqNeg (fetchWord mBeqNeg) rfl (Or.inl ⟨rfl, rfl⟩)
  exact h.trans (by decide)

/-- C4: the code multiplies the two int32_t register values in 32-bit
arithmetic and only then widens to int64_t, so with both operands 65536 the
true 64-bit product is 2^32 (upper word 1, lower word 0) but the code leaves
hi = 0 and lo = 0; hi is not the upper 32 bits of the full 64-bit product. -/
theorem C4_mult_truncation :
    GET_OP (fetchWord mMultBig) = OP_SPECIAL ∧
    GET_FUNC (fetchWord mMultBig) = SPE_MULT ∧
    toSigned (reg mMultBig 2) * toSigned (reg mMultBig 3) = 2 ^ 32 ∧
    (execInstruction mMultBig).2.hi = 0 ∧
    (execInstruction mMultBig).2.lo = 0 ∧
    (execInstruction mMultBig).2.hi ≠
      u32 (Int.fdiv (toSigned (reg mMultBig 2) * toSigned (reg mMultBig 3)) (2 ^ 32)) := by
  decide

/-- C5: DIV and DIVU with a zero divisor register leave hi and lo unchanged
and the step succeeds (no fault); with a nonzero divisor, lo receives the
C-truncated quotient and hi the C remainder of the signed register values. -/
theorem C5_div_by_zero_noop (m : LMips) (instr : Nat) (h0 : fetchWord m = instr)
    (hop : GET_OP instr = OP_SPECIAL)
    (hfunc : GET_FUNC instr = SPE_DIV ∨ GET_FUNC instr = SPE_DIVU) :
    (toSigned (reg m (GET_RT instr)) = 0 →
      execInstruction m = (EXEC_SUCCESS, afterFetch m) ∧
      (execInstruction m).2.hi = m.hi ∧ (execInstruction m).2.lo = m.lo ∧
      (execInstruction m).1 = EXEC_SUCCESS) ∧
    (toSigned (reg m (GET_RT instr)) ≠ 0 →
      (execInstruction m).1 = EXEC_SUCCESS ∧
      (execInstruction m).2.lo =
        u32 (Int.tdiv (toSigned (reg m (GET_RS instr))) (toSigned (reg m (GET_RT instr)))) ∧
      (execInstruction m).2.hi =
        u32 (Int.tmod (toSigned (reg m (GET_RS instr))) (toSigned (reg m (GET_RT instr))))) := by
  have he : execInstruction m = dispatch instr (afterFetch m) := by
    rw [execInstruction, h0]
  have hd := dispatch_DIV instr (afterFetch m) hop hfunc
  simp only [reg_afterFetch] at hd
  constructor
  · intro hz
    rw [he, hd, if_neg (not_not_intro hz)]
    exact ⟨rfl, rfl, rfl, rfl⟩
  · intro hz
    rw [he, hd, if_pos hz]
    exact ⟨rfl, rfl, rfl⟩

/-- C5 witness: a concrete DIV by zero keeps hi = 5 and lo = 6 and succeeds,
and a concrete DIV of -7 by 2 puts the truncated quotient -3 in lo and the
remainder -1 in hi. -/
theorem C5_div_by_zero_noop_witness :
    (execInstruction mDivZero).1 = EXEC_SUCCESS ∧
    (execInstruction mDivZero).2.hi = 5 ∧ (execInstruction mDivZero).2.lo = 6 ∧
    (execInstruction mDivOk).2.lo = u32 (-3) ∧ (execInstruction mDivOk).2.hi = u32 (-1) := by
  have hz := (C5_div_by_zero_noop mDivZero (fetchWord mDivZero) rfl rfl (Or.inl rfl)).1
    (by decide)
  have hn := (C5_div_by_zero_noop mDivOk (fetchWord mDivOk) rfl rfl (Or.inl rfl)).2
    (by decide)
  exact ⟨hz.2.2.2, hz.2.1.trans (by decide), hz.2.2.1.trans (by decide),
    hn.2.1.trans (by decide), hn.2.2.trans (by decide)⟩

/-- C6: MTLO copies the rs register value into hi (not lo), reproducing the
reference's swap: afterwards hi holds the previous value of register rs while
lo and the register file are unchanged, and the step succeeds. -/
theorem C6_mtlo_writes_hi (m : LMips) (instr : Nat) (h0 : fetchWord m = instr)
    (hop : GET_OP instr = OP_SPECIAL) (hfunc : GET_FUNC instr = SPE_MTLO) :
    (execInstruction m).1 = EXEC_SUCCESS ∧
    (execInstruction m).2.hi = reg m (GET_RS instr) ∧
    (execInstruction m).2.lo = m.lo ∧
    (execInstruction m).2.regs = m.regs := by
  have he : execInstruction m = dispatch instr (afterFetch m) := by
    rw [execInstruction, h0]
  have hd := dispatch_MTLO instr (afterFetch m) hop hfunc
  simp only [reg_afterFetch] at hd
  rw [he, hd]
  exact ⟨rfl, rfl, rfl, rfl⟩

/-- C6 witness: a concrete MTLO with register 2 holding 77 sets hi to 77 and
leaves lo at 6. -/
theorem C6_mtlo_writes_hi_witness :
    (execInstruction mMtlo).2.hi = 77 ∧ (execInstruction mMtlo).2.lo = 6 := by
  have h := C6_mtlo_writes_hi mMtlo (fetchWord mMtlo) rfl rfl rfl
  exact ⟨h.2.1.trans (by decide), h.2.2.1.trans (by decide)⟩

/-- C7: ANDI, ORI and XORI are claimed to combine the rs register's value with
the zero-extended immediate, but the code combines the raw rs field index: a
concrete ORI with rs field 8, register 8 holding 12345 and immediate 1 writes
8 ||| 1 = 9 to rt, not 12345 ||| 1. -/
theorem C7_field_vs_value :
    GET_OP (fetchWord mOri) = OP_ORI ∧
    GET_RS (fetchWord mOri) = 8 ∧
    reg mOri 8 = 12345 ∧
    reg (execInstruction mOri).2 (GET_RT (fetchWord mOri)) =
      GET_RS (fetchWord mOri) ||| zero_extend (GET_IMMED (fetchWord mOri)) 16 ∧
    reg (execInstruction mOri).2 (GET_RT (fetchWord mOri)) ≠
      reg mOri 8 ||| zero_extend (GET_IMMED (fetchWord mOri)) 16 := by
  decide

/-- C8: running a machine whose program reference is null fails immediately
with the generic failure result and the returned state is exactly the input
state, so no instruction was consumed and no register, hi, lo, instruction
pointer or halt flag was modified. -/
theorem C8_null_program (fuel : Nat) (m : LMips) (h : m.program = none) :
    runSimulator fuel m = (EXEC_FAILURE, m) := by
  simp [runSimulator, h]

/-- C8 witness: the concrete machine with no program fails unchanged. -/
theorem C8_null_program_witness : runSimulator 10 mNoProg = (EXEC_FAILURE, mNoProg) :=
  C8_null_program 10 mNoProg rfl

/-- C9: after initSimulator with any program buffer, every register holds 0
except the stack-pointer register 29, which holds STACK_SIZE; hi, lo and the
instruction pointer are 0, the halt flag is false, and the program reference
is the given buffer. -/
theorem C9_initialize_state (m : LMips) (prog : List Nat) :
    (∀ i, i < REG_COUNT →
      reg (initSimulator m prog) i = if i = regSp then STACK_SIZE else 0) ∧
    (initSimulator m prog).hi = 0 ∧ (initSimulator m prog).lo = 0 ∧
    (initSimulator m prog).ip = 0 ∧ (initSimulator m prog).stop = false ∧
    (initSimulator m prog).program = some prog := by
  refine ⟨?_, rfl, rfl, rfl, rfl, rfl⟩
  have hregs : (initSimulator m prog).regs =
      (List.replicate REG_COUNT 0).set regSp STACK_SIZE := rfl
  intro i
  rw [reg, hregs]
  revert i
  decide

/-- C9 witness: in a concrete initialization, register 29 holds STACK_SIZE,
registers 0 and 31 hold 0, and the program reference is the given buffer. -/
theorem C9_initialize_state_witness :
    reg (initSimulator mNoProg [1, 2, 3]) 29 = STACK_SIZE ∧
    reg (initSimulator mNoProg [1, 2, 3]) 0 = 0 ∧
    reg (initSimulator mNoProg [1, 2, 3]) 31 = 0 ∧
    (initSimulator mNoProg [1, 2, 3]).program = some [1, 2, 3] := by
  have h := C9_initialize_state mNoProg [1, 2, 3]
  exact ⟨(h.1 29 (by decide)).trans (by decide), (h.1 0 (by decide)).trans (by decide),
    (h.1 31 (by decide)).trans (by decide), h.2.2.2.2.2⟩

/-- C10: SLT and SLTU both compare the two register values as signed 32-bit
integers (so SLTU is identical to SLT), while SLTIU compares the rs register
pattern as an unsigned 32-bit integer against the zero-extended immediate;
consequently, on the same mathematical comparison (-1 versus 0) the concrete
SLTU writes 1 while the concrete SLTIU writes 0. -/
theorem C10_slt_sltu_sltiu (m : LMips) (instr : Nat) (h0 : fetchWord m = instr)
    (hlen : m.regs.length = REG_COUNT) :
    (GET_OP instr = OP_SPECIAL →
      GET_FUNC instr = SPE_SLT ∨ GET_FUNC instr = SPE_SLTU →
      reg (execInstruction m).2 (GET_RD instr) =
        if toSigned (reg m (GET_RS instr)) < toSigned (reg m (GET_RT instr)) then 1 else 0) ∧
    (GET_OP instr = OP_SLTIU →
      reg (execInstruction m).2 (GET_RT instr) =
        if reg m (GET_RS instr) < zero_extend (GET_IMMED instr) 16 then 1 else 0) ∧
    reg (execInstruction mSltu).2 1 = 1 ∧
    toSigned (reg mSltu 2) = -1 ∧ toSigned (reg mSltu 3) = 0 ∧
    reg (execInstruction mSltiu).2 1 = 0 ∧
    toSigned (reg mSltiu 2) = -1 ∧ zero_extend (GET_IMMED (fetchWord mSltiu)) 16 = 0 := by
  have he : execInstruction m = dispatch instr (afterFetch m) := by
    rw [execInstruction, h0]
  have hlen' : ∀ j : Nat, j &&& 31 < (afterFetch m).regs.length := by
    intro j
    rw [afterFetch_regs, hlen]
    exact field_lt_32 j
  refine ⟨?_, ?_, by decide, by decide, by decide, by decide, by decide, by decide⟩
  · intro hop hfunc
    have hd := dispatch_SLT instr (afterFetch m) hop hfunc
    simp only [reg_afterFetch] at hd
    rw [he, hd]
    have hb : GET_RD instr < (afterFetch m).regs.length := hlen' (instr >>> 11)
    rw [reg_setReg_self (afterFetch m) (GET_RD instr) _ hb]
    by_cases hc : toSigned (reg m (GET_RS instr)) < toSigned (reg m (GET_RT instr)) <;>
      simp [hc, U32MOD]
  · intro hop
    have hd := dispatch_SLTIU instr (afterFetch m) hop
    simp only [reg_afterFetch] at hd
    rw [he, hd]
    have hb : GET_RT instr < (afterFetch m).regs.length := hlen' (instr >>> 16)
    rw [reg_setReg_self (afterFetch m) (GET_RT instr) _ hb]
    by_cases hc : reg m (GET_RS instr) < zero_extend (GET_IMMED instr) 16 <;>
      simp [hc, U32MOD]

/-- C10 witness: the concrete SLTU machine writes 1 into its destination
register, obtained through the general signed-comparison statement. -/
theorem C10_slt_sltu_sltiu_witness : reg (execInstruction mSltu).2 (GET_RD (fetchWord mSltu)) = 1 := by
  have h := (C10_slt_sltu_sltiu mSltu (fetchWord mSltu) rfl (by decide)).1 rfl (Or.inr rfl)
  exact h.trans (by decide)

end LMipsSim
